import Mathlib

/-!
Formal model of the tiempo-reports newsletter reporting scripts
(`scripts/generate_report.py` and `scripts/newsletter_report.py`).

Numbers are modelled exactly: Python ints as `Nat`/`Int`, Python floats as
`ℚ` (the scripts only do field arithmetic on API counts, so rational
arithmetic is a faithful model of the intended values).  Python's `int(x)`
conversion truncates toward zero and is modelled by `truncToInt`; Python's
`round(x, 2)` and the `"%.nf"` format strings round to the nearest multiple
of `10 ^ (-n)`; we model them with `round` (ties toward `+∞`), which agrees
with Python everywhere except at exact ties, and no property below is
evaluated at a tie.  Python's `sorted` is a stable sort, modelled by the
stable insertion sort `stableSort`.  String formatting of dates
(`strftime`) and the HTML/CSV/Slack rendering layers are outside the model,
as are the HTTP transport details: the Beehiiv server is abstracted as an
`ApiServer` giving, for each page number, the page's post list and HTTP
status, together with the reported `total_pages` value.
-/

namespace TiempoReports

/-- Python `int(q)` applied to a rational: truncation toward zero. -/
def truncToInt (q : ℚ) : ℤ := if 0 ≤ q then ⌊q⌋ else ⌈q⌉

/-- Python `round(q, 2)`: round to the nearest hundredth (ties upward here;
Python rounds float ties to even, but no claim is evaluated at a tie). -/
def pyRound2 (q : ℚ) : ℚ := ((round (q * 100) : ℤ) : ℚ) / 100

/-- Python `f"{q:+.1f}%"`: sign, one decimal place, percent suffix
(`generate_report.py` line 160). -/
def fmtSignedPct1 (q : ℚ) : String :=
  let sign := if q < 0 then "-" else "+"
  let scaled := (round (|q| * 10)).toNat
  sign ++ toString (scaled / 10) ++ "." ++ toString (scaled % 10) ++ "%"

/-- Python `f"{q:+.2f}pp"`: sign, two decimal places, `pp` suffix
(`generate_report.py` line 152). -/
def fmtSignedPp2 (q : ℚ) : String :=
  let sign := if q < 0 then "-" else "+"
  let scaled := (round (|q| * 100)).toNat
  let fracPart := scaled % 100
  let fracStr := (if fracPart < 10 then "0" else "") ++ toString fracPart
  sign ++ toString (scaled / 100) ++ "." ++ fracStr ++ "pp"

/-- Stable insertion of `a` into a sorted list: `a` goes before the first
element `b` with `le a b` true, so elements comparing equal keep their
original relative order (as Python's stable `sorted` does). -/
def insertStable {α : Type} (le : α → α → Bool) (a : α) : List α → List α
  | [] => [a]
  | b :: t => if le a b then a :: b :: t else b :: insertStable le a t

/-- Stable sort by the boolean relation `le`; models Python's `sorted`. -/
def stableSort {α : Type} (le : α → α → Bool) : List α → List α
  | [] => []
  | a :: t => insertStable le a (stableSort le t)

-- ===========================================================================
-- Data model (spec §3): raw API records
-- ===========================================================================

/-- One link-click record inside a raw post's `clicks` expansion.  The
`description` key may be missing (`Option`); the scripts then default it to
the first 50 characters of the URL. -/
structure RawClick where
  url : String
  description : Option String
  total_clicks : ℕ
  total_unique_clicks : ℕ
  deriving DecidableEq

/-- The `stats.email` block of a raw post. -/
structure EmailStats where
  recipients : ℕ
  opens : ℕ
  unique_opens : ℕ
  clicks : ℕ
  unique_clicks : ℕ
  unsubscribes : ℕ
  deriving DecidableEq

/-- A raw API post record (the fields the scripts read; the `.get(_, 0)`
defaults of the Python code are absorbed into the field values). -/
structure RawPost where
  title : String
  publish_date : ℤ
  email : EmailStats
  web_views : ℕ
  clicks : List RawClick
  deriving DecidableEq

-- ===========================================================================
-- Post normalizer (spec §4.2): process_post / process_post_data
-- ===========================================================================

/-- A normalized link-click entry (`generate_report.py` lines 99-106). -/
structure ClickEntry where
  url : String
  description : String
  clicks : ℕ
  unique_clicks : ℕ
  deriving DecidableEq

/-- Normalized per-post metrics (`generate_report.py` `process_post`
return value; `date` keeps the raw timestamp). -/
structure PostMetrics where
  title : String
  date : ℤ
  recipients : ℕ
  opens : ℕ
  unique_opens : ℕ
  open_rate : ℚ
  clicks : ℕ
  unique_clicks : ℕ
  click_rate : ℚ
  unsubscribes : ℕ
  web_views : ℕ
  impressions : ℕ
  top_clicks : List ClickEntry
  deriving DecidableEq

/-- One entry of `clicks_data` in `process_post` (lines 101-106). -/
def mkClickEntry (c : RawClick) : ClickEntry :=
  { url := c.url
    description := c.description.getD (c.url.take 50)
    clicks := c.total_clicks
    unique_clicks := c.total_unique_clicks }

/-- `generate_report.py` `process_post` (lines 86-122). -/
def process_post (post : RawPost) : PostMetrics :=
  { title := post.title
    date := post.publish_date
    recipients := post.email.recipients
    opens := post.email.opens
    unique_opens := post.email.unique_opens
    open_rate :=
      if 0 < post.email.recipients
      then (post.email.unique_opens : ℚ) / (post.email.recipients : ℚ) * 100
      else 0
    clicks := post.email.clicks
    unique_clicks := post.email.unique_clicks
    click_rate :=
      if 0 < post.email.recipients
      then (post.email.unique_clicks : ℚ) / (post.email.recipients : ℚ) * 100
      else 0
    unsubscribes := post.email.unsubscribes
    web_views := post.web_views
    impressions := post.email.opens + post.web_views
    top_clicks := (post.clicks.take 5).map mkClickEntry }

/-- Normalized per-post record of `newsletter_report.py`
`process_post_data` (the numeric fields; `post_id` and the `strftime`
date/month strings are presentation data outside the numeric model). -/
structure PostData where
  publication : String
  title : String
  date : ℤ
  recipients : ℕ
  opens : ℕ
  unique_opens : ℕ
  open_rate : ℚ
  clicks : ℕ
  unique_clicks : ℕ
  click_rate : ℚ
  unsubscribes : ℕ
  web_views : ℕ
  impressions : ℕ
  deriving DecidableEq

/-- `newsletter_report.py` `process_post_data` (lines 135-182): same rate
computation as `process_post`, then `round(rate, 2)`. -/
def process_post_data (post : RawPost) (publication_name : String) : PostData :=
  { publication := publication_name
    title := post.title
    date := post.publish_date
    recipients := post.email.recipients
    opens := post.email.opens
    unique_opens := post.email.unique_opens
    open_rate :=
      pyRound2 (if 0 < post.email.recipients
        then (post.email.unique_opens : ℚ) / (post.email.recipients : ℚ) * 100
        else 0)
    clicks := post.email.clicks
    unique_clicks := post.email.unique_clicks
    click_rate :=
      pyRound2 (if 0 < post.email.recipients
        then (post.email.unique_clicks : ℚ) / (post.email.recipients : ℚ) * 100
        else 0)
    unsubscribes := post.email.unsubscribes
    web_views := post.web_views
    impressions := post.email.opens + post.web_views }

/-- One row of `clicks_data` in `newsletter_report.py`
`process_clicks_data` (lines 195-202). -/
structure ClickRow where
  publication : String
  post_title : String
  link_url : String
  link_description : String
  clicks : ℕ
  unique_clicks : ℕ
  deriving DecidableEq

/-- `newsletter_report.py` `process_clicks_data` (lines 184-204): one row
per click record of the post — note: no cap on the number of records. -/
def process_clicks_data (post : RawPost) (publication_name : String) : List ClickRow :=
  post.clicks.map fun c =>
    { publication := publication_name
      post_title := post.title
      link_url := c.url
      link_description := c.description.getD (c.url.take 50)
      clicks := c.total_clicks
      unique_clicks := c.total_unique_clicks }

-- ===========================================================================
-- Aggregator (spec §4.3): calc_metrics
-- ===========================================================================

/-- Aggregate over one publication and one period (`generate_report.py`
`calc_metrics` result; the `int(...)` averages are integers). -/
structure PeriodAggregate where
  posts_sent : ℕ
  avg_sent : ℤ
  impressions : ℕ
  avg_unique_opens : ℤ
  avg_open_rate : ℚ
  total_clicks : ℕ
  avg_unique_clicks : ℤ
  avg_click_rate : ℚ
  unsubscribes : ℕ
  top_posts : List PostMetrics
  deriving DecidableEq

/-- `generate_report.py` `calc_metrics` (lines 124-140): `None` on an
empty list, otherwise sums, truncated and exact means, and the top-3 posts
by open rate (stable descending sort, Python `sorted(..., reverse=True)`). -/
def calc_metrics (posts : List PostMetrics) : Option PeriodAggregate :=
  if posts.isEmpty then none
  else
    let count : ℚ := (posts.length : ℚ)
    some
      { posts_sent := posts.length
        avg_sent := truncToInt (((posts.map fun p => (p.recipients : ℚ)).sum) / count)
        impressions := (posts.map fun p => p.impressions).sum
        avg_unique_opens := truncToInt (((posts.map fun p => (p.unique_opens : ℚ)).sum) / count)
        avg_open_rate := ((posts.map fun p => p.open_rate).sum) / count
        total_clicks := (posts.map fun p => p.clicks).sum
        avg_unique_clicks := truncToInt (((posts.map fun p => (p.unique_clicks : ℚ)).sum) / count)
        avg_click_rate := ((posts.map fun p => p.click_rate).sum) / count
        unsubscribes := (posts.map fun p => p.unsubscribes).sum
        top_posts := (stableSort (fun a b => decide (b.open_rate ≤ a.open_rate)) posts).take 3 }

-- ===========================================================================
-- Comparator (spec §4.4): calc_change
-- ===========================================================================

/-- Result of one metric comparison (`calc_change` return dict). -/
structure ChangeResult where
  value : ℚ
  display : String
  positive : Bool
  deriving DecidableEq

/-- `generate_report.py` `calc_change` (lines 142-162). -/
def calc_change (current previous : ℚ) (is_percentage : Bool) : ChangeResult :=
  if previous = 0 then { value := 0, display := "N/A", positive := true }
  else if is_percentage then
    let diff := current - previous
    { value := diff, display := fmtSignedPp2 diff, positive := decide (0 ≤ diff) }
  else
    let pct := (current - previous) / previous * 100
    { value := pct, display := fmtSignedPct1 pct, positive := decide (0 ≤ pct) }

-- ===========================================================================
-- Fetcher (spec §4.1): fetch_posts
-- ===========================================================================

/-- Abstract Beehiiv listing endpoint: for each page number, the page's
posts and HTTP status, plus the reported `total_pages` (the scripts read it
from each response; an honest server reports the same value on every page,
which is what this model fixes). -/
structure ApiServer where
  pages : ℕ → List RawPost
  status : ℕ → ℕ
  total_pages : ℕ

/-- The `limit` request parameter of both `fetch_posts` variants. -/
def fetchPageLimit : ℕ := 100

/-- The date filter of `fetch_posts`: `start_ts <= publish_date <= end_ts`,
inclusive at both ends. -/
def inWindow (startTs endTs : ℤ) (p : RawPost) : Bool :=
  decide (startTs ≤ p.publish_date) && decide (p.publish_date ≤ endTs)

/-- The `while True` pagination loop of `fetch_posts`, fuelled by
`remaining = total_pages - page`: a non-200 response or an empty page stops
the loop; otherwise the page's in-window posts are kept and, while
`page < total_pages` (i.e. `remaining > 0`), the next page is fetched. -/
def fetchGo (srv : ApiServer) (startTs endTs : ℤ) : ℕ → ℕ → List RawPost
  | 0, page =>
    if srv.status page ≠ 200 then []
    else if (srv.pages page).isEmpty then []
    else (srv.pages page).filter (inWindow startTs endTs)
  | r + 1, page =>
    if srv.status page ≠ 200 then []
    else if (srv.pages page).isEmpty then []
    else (srv.pages page).filter (inWindow startTs endTs)
      ++ fetchGo srv startTs endTs r (page + 1)

/-- `fetch_posts` (`generate_report.py` lines 53-84, identically
`newsletter_report.py` lines 59-116): paginate from page 1 until an empty
page, a non-200 response, or `page >= total_pages`. -/
def fetch_posts (srv : ApiServer) (startTs endTs : ℤ) : List RawPost :=
  fetchGo srv startTs endTs (srv.total_pages - 1) 1

-- ===========================================================================
-- Report builders (spec §4.5): the per-publication loop of
-- generate_weekly_report / generate_monthly_report
-- ===========================================================================

/-- `prev_val = prev_metrics[key] if prev_metrics else 0`
(`generate_report.py` lines 651, 656). -/
def prevValue (prev : Option PeriodAggregate) (get : PeriodAggregate → ℚ) : ℚ :=
  match prev with
  | none => 0
  | some m => get m

/-- `changes[key] = calc_change(curr_metrics[key], prev_val, ...)`
(`generate_report.py` lines 652, 657). -/
def changeForKey (curr : ℚ) (prev : Option PeriodAggregate)
    (get : PeriodAggregate → ℚ) (is_percentage : Bool) : ChangeResult :=
  calc_change curr (prevValue prev get) is_percentage

/-- The `changes` dict built per publication (one `ChangeResult` per
tracked metric key). -/
structure Changes where
  posts_sent : ChangeResult
  avg_sent : ChangeResult
  impressions : ChangeResult
  avg_unique_opens : ChangeResult
  total_clicks : ChangeResult
  avg_unique_clicks : ChangeResult
  unsubscribes : ChangeResult
  avg_open_rate : ChangeResult
  avg_click_rate : ChangeResult
  deriving DecidableEq

/-- The two `for key in [...]` loops of the report builders
(`generate_report.py` lines 649-657): count-like keys use relative
percent change, the two rate keys use percentage points. -/
def mkChanges (curr : PeriodAggregate) (prev : Option PeriodAggregate) : Changes :=
  { posts_sent := changeForKey (curr.posts_sent : ℚ) prev (fun m => (m.posts_sent : ℚ)) false
    avg_sent := changeForKey (curr.avg_sent : ℚ) prev (fun m => (m.avg_sent : ℚ)) false
    impressions := changeForKey (curr.impressions : ℚ) prev (fun m => (m.impressions : ℚ)) false
    avg_unique_opens :=
      changeForKey (curr.avg_unique_opens : ℚ) prev (fun m => (m.avg_unique_opens : ℚ)) false
    total_clicks := changeForKey (curr.total_clicks : ℚ) prev (fun m => (m.total_clicks : ℚ)) false
    avg_unique_clicks :=
      changeForKey (curr.avg_unique_clicks : ℚ) prev (fun m => (m.avg_unique_clicks : ℚ)) false
    unsubscribes := changeForKey (curr.unsubscribes : ℚ) prev (fun m => (m.unsubscribes : ℚ)) false
    avg_open_rate := changeForKey curr.avg_open_rate prev (fun m => m.avg_open_rate) true
    avg_click_rate := changeForKey curr.avg_click_rate prev (fun m => m.avg_click_rate) true }

/-- A collected click with the owning post's title attached
(`generate_report.py` lines 641-645). -/
structure PubClickRow where
  url : String
  description : String
  clicks : ℕ
  unique_clicks : ℕ
  post_title : String
  deriving DecidableEq

/-- `all_clicks` collection over the current period's processed posts
(`generate_report.py` lines 641-645): encounter order, title attached. -/
def collectClicks (posts : List PostMetrics) : List PubClickRow :=
  (posts.map fun p => p.top_clicks.map fun c =>
    { url := c.url
      description := c.description
      clicks := c.clicks
      unique_clicks := c.unique_clicks
      post_title := p.title }).flatten

/-- Per-publication entry of `report_data['publications']`
(`generate_report.py` lines 659-664). -/
structure PubEntry where
  current : PeriodAggregate
  previous : Option PeriodAggregate
  changes : Changes
  top_clicks : List PubClickRow
  deriving DecidableEq

/-- The running cross-publication totals block
(`generate_report.py` lines 615-618). -/
structure TotalsAcc where
  posts : ℕ
  impressions : ℕ
  clicks : ℕ
  open_rates : List ℚ
  deriving DecidableEq

/-- The report structure built by the per-publication loop. -/
structure ReportData where
  publications : List (String × PubEntry)
  totalsCurrent : TotalsAcc
  totalsPrevious : TotalsAcc
  deriving DecidableEq

/-- Input to the loop for one publication: its key and the normalized
posts fetched for the current and previous periods. -/
structure PubData where
  key : String
  curr : List PostMetrics
  prev : List PostMetrics
  deriving DecidableEq

/-- One `totals[...] += ...` block (`generate_report.py` lines 667-676). -/
def addTotals (t : TotalsAcc) (m : PeriodAggregate) : TotalsAcc :=
  { posts := t.posts + m.posts_sent
    impressions := t.impressions + m.impressions
    clicks := t.clicks + m.total_clicks
    open_rates := t.open_rates ++ [m.avg_open_rate] }

/-- One iteration of the per-publication loop (`generate_report.py`
lines 621-676 / 742-794): if the current period aggregates to `None` the
publication is skipped entirely (`continue`); otherwise its entry is added
to the publications map, current totals always accumulate, and previous
totals accumulate only when the previous aggregate is not `None`. -/
def stepPub (acc : ReportData) (pub : PubData) : ReportData :=
  match calc_metrics pub.curr with
  | none => acc
  | some currM =>
    let prevM := calc_metrics pub.prev
    let allClicks := stableSort (fun a b => decide (b.clicks ≤ a.clicks)) (collectClicks pub.curr)
    { publications := acc.publications ++
        [(pub.key,
          { current := currM
            previous := prevM
            changes := mkChanges currM prevM
            top_clicks := allClicks.take 5 })]
      totalsCurrent := addTotals acc.totalsCurrent currM
      totalsPrevious :=
        match prevM with
        | none => acc.totalsPrevious
        | some pm => addTotals acc.totalsPrevious pm }

/-- The initial `report_data` skeleton (`generate_report.py` lines 611-619). -/
def initReport : ReportData :=
  { publications := []
    totalsCurrent := { posts := 0, impressions := 0, clicks := 0, open_rates := [] }
    totalsPrevious := { posts := 0, impressions := 0, clicks := 0, open_rates := [] } }

/-- The per-publication loop of `generate_weekly_report`
(`generate_report.py` lines 621-676); fetching, period arithmetic and
rendering are outside the model — `pubs` stands for the normalized posts
fetched per publication, in the iteration order of `PUBLICATIONS`. -/
def generate_weekly_report (pubs : List PubData) : ReportData :=
  pubs.foldl stepPub initReport

/-- The per-publication loop of `generate_monthly_report`
(`generate_report.py` lines 742-794); its body is line-for-line the same
as the weekly one. -/
def generate_monthly_report (pubs : List PubData) : ReportData :=
  pubs.foldl stepPub initReport

/-- `sum(open_rates) / len(open_rates) if open_rates else 0`
(`generate_report.py` lines 682-683 / 800-801): the combined average open
rate over the collected per-publication averages. -/
def avgOpenRateOfTotals (t : TotalsAcc) : ℚ :=
  if t.open_rates.isEmpty then 0 else t.open_rates.sum / (t.open_rates.length : ℚ)

/-- The per-publication average open rate formula used by `calc_metrics`. -/
def pubAvgOpenRate (posts : List PostMetrics) : ℚ :=
  ((posts.map fun p => p.open_rate).sum) / (posts.length : ℚ)

-- ===========================================================================
-- Division-checked variants (for the division-safety claim): `divChecked`
-- returns `none` exactly when the denominator is zero, so a checked
-- function equal to `some` of the plain one has no reachable
-- division-by-zero.
-- ===========================================================================

/-- Division that fails (`none`) on a zero denominator. -/
def divChecked (a b : ℚ) : Option ℚ := if b = 0 then none else some (a / b)

/-- `process_post` with every division routed through `divChecked`. -/
def process_post_checked (post : RawPost) : Option PostMetrics := do
  let openRate ←
    if 0 < post.email.recipients
    then (divChecked (post.email.unique_opens : ℚ) (post.email.recipients : ℚ)).map (· * 100)
    else some 0
  let clickRate ←
    if 0 < post.email.recipients
    then (divChecked (post.email.unique_clicks : ℚ) (post.email.recipients : ℚ)).map (· * 100)
    else some 0
  some
    { title := post.title
      date := post.publish_date
      recipients := post.email.recipients
      opens := post.email.opens
      unique_opens := post.email.unique_opens
      open_rate := openRate
      clicks := post.email.clicks
      unique_clicks := post.email.unique_clicks
      click_rate := clickRate
      unsubscribes := post.email.unsubscribes
      web_views := post.web_views
      impressions := post.email.opens + post.web_views
      top_clicks := (post.clicks.take 5).map mkClickEntry }

/-- `calc_metrics` with every division routed through `divChecked`. -/
def calc_metrics_checked (posts : List PostMetrics) : Option (Option PeriodAggregate) :=
  if posts.isEmpty then some none
  else
    let count : ℚ := (posts.length : ℚ)
    do
      let a1 ← divChecked ((posts.map fun p => (p.recipients : ℚ)).sum) count
      let a2 ← divChecked ((posts.map fun p => (p.unique_opens : ℚ)).sum) count
      let a3 ← divChecked ((posts.map fun p => p.open_rate).sum) count
      let a4 ← divChecked ((posts.map fun p => (p.unique_clicks : ℚ)).sum) count
      let a5 ← divChecked ((posts.map fun p => p.click_rate).sum) count
      some (some
        { posts_sent := posts.length
          avg_sent := truncToInt a1
          impressions := (posts.map fun p => p.impressions).sum
          avg_unique_opens := truncToInt a2
          avg_open_rate := a3
          total_clicks := (posts.map fun p => p.clicks).sum
          avg_unique_clicks := truncToInt a4
          avg_click_rate := a5
          unsubscribes := (posts.map fun p => p.unsubscribes).sum
          top_posts := (stableSort (fun a b => decide (b.open_rate ≤ a.open_rate)) posts).take 3 })

/-- `calc_change` with its division routed through `divChecked`. -/
def calc_change_checked (current previous : ℚ) (is_percentage : Bool) : Option ChangeResult :=
  if previous = 0 then some { value := 0, display := "N/A", positive := true }
  else if is_percentage then
    let diff := current - previous
    some { value := diff, display := fmtSignedPp2 diff, positive := decide (0 ≤ diff) }
  else
    (divChecked (current - previous) previous).map fun q =>
      { value := q * 100, display := fmtSignedPct1 (q * 100), positive := decide (0 ≤ q * 100) }

-- ===========================================================================
-- Concrete test data
-- ===========================================================================

/-- The zero-change result: the `previous == 0` sentinel of `calc_change`. -/
def naChange : ChangeResult := { value := 0, display := "N/A", positive := true }

/-- A blank normalized post, used as a base for concrete test records. -/
def zeroPost : PostMetrics :=
  { title := "", date := 0, recipients := 0, opens := 0, unique_opens := 0, open_rate := 0,
    clicks := 0, unique_clicks := 0, click_rate := 0, unsubscribes := 0, web_views := 0,
    impressions := 0, top_clicks := [] }

/-- A normalized post carrying only an open rate. -/
def ratePost (r : ℚ) : PostMetrics := { zeroPost with open_rate := r }

/-- A raw fixture post: 6732 recipients, the given opens and unique opens,
no web views, no clicks. -/
def fixtureRaw (o u : ℕ) : RawPost :=
  { title := "", publish_date := 0,
    email := { recipients := 6732, opens := o, unique_opens := u, clicks := 0,
               unique_clicks := 0, unsubscribes := 0 },
    web_views := 0, clicks := [] }

/-- Five normalized fixture posts matching the embedded sample report:
6732 recipients each, impressions (= opens) summing to 22051, and unique
opens whose average open rate rounds to 46.47%. -/
def fixturePosts : List PostMetrics :=
  [fixtureRaw 4419 3155, fixtureRaw 4571 3149, fixtureRaw 4377 3136,
   fixtureRaw 4342 3101, fixtureRaw 4342 3100].map process_post

/-- A raw post reporting more unique opens than recipients (nothing in the
scripts rules this out, the API values are taken as-is). -/
def overRaw : RawPost :=
  { title := "", publish_date := 0,
    email := { recipients := 1, opens := 0, unique_opens := 2, clicks := 0,
               unique_clicks := 0, unsubscribes := 0 },
    web_views := 0, clicks := [] }

/-- A raw post with consistent counts: 4 recipients, 2 unique opens,
1 unique click. -/
def wRaw : RawPost :=
  { title := "", publish_date := 0,
    email := { recipients := 4, opens := 3, unique_opens := 2, clicks := 1,
               unique_clicks := 1, unsubscribes := 0 },
    web_views := 0, clicks := [] }

/-- Six link-click records. -/
def sixClicks : List RawClick :=
  [{ url := "u1", description := none, total_clicks := 1, total_unique_clicks := 1 },
   { url := "u2", description := none, total_clicks := 2, total_unique_clicks := 2 },
   { url := "u3", description := none, total_clicks := 3, total_unique_clicks := 3 },
   { url := "u4", description := none, total_clicks := 4, total_unique_clicks := 4 },
   { url := "u5", description := none, total_clicks := 5, total_unique_clicks := 5 },
   { url := "u6", description := none, total_clicks := 6, total_unique_clicks := 6 }]

/-- A raw post carrying six link-click records. -/
def sixClicksPost : RawPost :=
  { title := "t", publish_date := 0,
    email := { recipients := 0, opens := 0, unique_opens := 0, clicks := 0,
               unique_clicks := 0, unsubscribes := 0 },
    web_views := 0, clicks := sixClicks }

/-- A blank stub post published at timestamp 0. -/
def stubPost : RawPost :=
  { title := "", publish_date := 0,
    email := { recipients := 0, opens := 0, unique_opens := 0, clicks := 0,
               unique_clicks := 0, unsubscribes := 0 },
    web_views := 0, clicks := [] }

/-- Pagination stub: page 1 holds 100 posts, page 2 holds 37 posts,
`total_pages = 2`, every response is HTTP 200. -/
def stubServer : ApiServer :=
  { pages := fun i => if i = 1 then List.replicate 100 stubPost
      else if i = 2 then List.replicate 37 stubPost else []
    status := fun _ => 200
    total_pages := 2 }

/-- Demo publication A: one current-period post with a 0% open rate. -/
def demoA : PubData := { key := "A", curr := [ratePost 0], prev := [] }

/-- Demo publication B: two current-period posts with 30% open rates. -/
def demoB : PubData := { key := "B", curr := [ratePost 30, ratePost 30], prev := [] }

/-- A publication whose current period is empty while its previous period
is not. -/
def entryE : PubData := { key := "E", curr := [], prev := [ratePost 5] }

-- ===========================================================================
-- Helper lemmas
-- ===========================================================================

/-- For a run of non-empty 200-pages, the pagination loop returns the
filtered concatenation of the pages it visits. -/
theorem fetchGo_concat (srv : ApiServer) (s e : ℤ) :
    ∀ (r page : ℕ),
      (∀ i ∈ List.range' page (r+1), srv.status i = 200 ∧ srv.pages i ≠ []) →
      fetchGo srv s e r page
        = (((List.range' page (r+1)).map srv.pages).flatten).filter (inWindow s e) := by
  intro r
  induction r with
  | zero =>
    intro page h
    obtain ⟨h200, hne⟩ := h page (by simp [List.mem_range'_1])
    simp [fetchGo, h200, List.isEmpty_iff, hne]
  | succ n ih =>
    intro page h
    obtain ⟨h200, hne⟩ := h page (by simp [List.mem_range'_1])
    rw [List.range'_succ]
    have hrest : ∀ i ∈ List.range' (page+1) (n+1), srv.status i = 200 ∧ srv.pages i ≠ [] := by
      intro i hi
      refine h i ?hh
      simp only [List.mem_range'_1] at hi ⊢
      omega
    simp [fetchGo, h200, List.isEmpty_iff, hne, List.filter_append, ih (page+1) hrest]

/-- The open rates collected into the totals block are exactly the
per-publication average open rates of the publications with a non-empty
current period, in loop order. -/
theorem foldl_open_rates (pubs : List PubData) :
    ∀ acc : ReportData,
      (List.foldl stepPub acc pubs).totalsCurrent.open_rates
        = acc.totalsCurrent.open_rates
          ++ (pubs.filter fun p => !p.curr.isEmpty).map fun p => pubAvgOpenRate p.curr := by
  induction pubs with
  | nil => intro acc; simp
  | cons p t ih =>
    intro acc
    by_cases hp : p.curr.isEmpty
    · have hnil : p.curr = [] := by simpa [List.isEmpty_iff] using hp
      have hstep : stepPub acc p = acc := by
        simp [stepPub, calc_metrics, hnil]
      simp [List.foldl_cons, hstep, hp, ih]
    · have hne : p.curr ≠ [] := by simpa [List.isEmpty_iff] using hp
      have hsome : calc_metrics p.curr = some
          { posts_sent := p.curr.length
            avg_sent :=
              truncToInt (((p.curr.map fun q => (q.recipients : ℚ)).sum) / (p.curr.length : ℚ))
            impressions := (p.curr.map fun q => q.impressions).sum
            avg_unique_opens :=
              truncToInt (((p.curr.map fun q => (q.unique_opens : ℚ)).sum) / (p.curr.length : ℚ))
            avg_open_rate := pubAvgOpenRate p.curr
            total_clicks := (p.curr.map fun q => q.clicks).sum
            avg_unique_clicks :=
              truncToInt (((p.curr.map fun q => (q.unique_clicks : ℚ)).sum) / (p.curr.length : ℚ))
            avg_click_rate := ((p.curr.map fun q => q.click_rate).sum) / (p.curr.length : ℚ)
            unsubscribes := (p.curr.map fun q => q.unsubscribes).sum
            top_posts :=
              (stableSort (fun a b => decide (b.open_rate ≤ a.open_rate)) p.curr).take 3 } := by
        simp [calc_metrics, hne, pubAvgOpenRate]
      simp only [List.foldl_cons, stepPub, hsome]
      rw [ih]
      simp [addTotals, hp]

/-- `round(q, 2)` of a nonnegative rational is nonnegative. -/
theorem pyRound2_nonneg {q : ℚ} (h : 0 ≤ q) : 0 ≤ pyRound2 q := by
  have h2 : (0:ℤ) ≤ round (q * 100) := by
    rw [round_eq]
    exact Int.le_floor.mpr (by push_cast; linarith)
  have h3 : (0:ℚ) ≤ ((round (q * 100) : ℤ) : ℚ) := by exact_mod_cast h2
  simp only [pyRound2]
  positivity

/-- `round(q, 2)` of a rational at most 100 is at most 100. -/
theorem pyRound2_le_100 {q : ℚ} (h : q ≤ 100) : pyRound2 q ≤ 100 := by
  have h2 : round (q * 100) ≤ (10000:ℤ) := by
    rw [round_eq]
    have hle : (⌊q * 100 + 1/2⌋ : ℤ) ≤ ⌊(10000:ℚ) + 1/2⌋ := Int.floor_mono (by linarith)
    have h10 : (⌊(10000:ℚ) + 1/2⌋ : ℤ) = 10000 := by norm_num
    omega
  simp only [pyRound2]
  rw [div_le_iff₀ (by norm_num : (0:ℚ) < 100)]
  have h3 : ((round (q * 100) : ℤ) : ℚ) ≤ 10000 := by exact_mod_cast h2
  linarith

/-- `round(0, 2) = 0`. -/
theorem pyRound2_zero : pyRound2 0 = 0 := by
  norm_num [pyRound2, round_eq]

/-- The unrounded rate formula is within `[0, 100]` when the numerator is
at most the positive denominator. -/
theorem rate_formula_bounds {u r : ℕ} (hr : 0 < r) (hu : u ≤ r) :
    0 ≤ (u : ℚ) / (r : ℚ) * 100 ∧ (u : ℚ) / (r : ℚ) * 100 ≤ 100 := by
  have hrq : (0:ℚ) < (r : ℚ) := by exact_mod_cast hr
  constructor
  · positivity
  · have h1 : (u : ℚ) / (r : ℚ) ≤ 1 := (div_le_one hrq).mpr (by exact_mod_cast hu)
    nlinarith

-- ===========================================================================
-- Claim theorems
-- ===========================================================================

/-- C1: for every current value and metric kind, `calc_change` at a zero
previous value returns the sentinel `{value: 0, display: "N/A",
positive: true}`. -/
theorem calcChange_zero_previous_sentinel :
    ∀ (current : ℚ) (is_percentage : Bool),
      calc_change current 0 is_percentage = { value := 0, display := "N/A", positive := true } := by
  intro c b
  simp [calc_change]

/-- C2: `calc_metrics` of an empty post list is the null aggregate `none`,
and every per-metric comparison the report builders compute against a null
previous aggregate uses previous = 0 and therefore is the zero-previous
"N/A" sentinel (for all nine tracked metric keys). -/
theorem empty_aggregate_null_and_na_changes :
    calc_metrics ([] : List PostMetrics) = none
    ∧ ∀ m : PeriodAggregate, mkChanges m none =
        { posts_sent := naChange, avg_sent := naChange, impressions := naChange,
          avg_unique_opens := naChange, total_clicks := naChange, avg_unique_clicks := naChange,
          unsubscribes := naChange, avg_open_rate := naChange, avg_click_rate := naChange } := by
  constructor
  · rfl
  · intro m
    simp [mkChanges, changeForKey, prevValue, calc_change, naChange]

/-- C3 counterexample: on two posts with 1 and 2 recipients the aggregate's
`avg_sent` is `int(3/2) = 1`, not the arithmetic mean `3/2`, so the claim
that the average fields equal the arithmetic mean is false as stated. -/
theorem avg_sent_not_exact_mean :
    (calc_metrics [{ zeroPost with recipients := 1 }, { zeroPost with recipients := 2 }]).map
        (fun m => (m.avg_sent : ℚ)) = some 1
    ∧ (({ zeroPost with recipients := 1 } : PostMetrics).recipients : ℚ)
        + (({ zeroPost with recipients := 2 } : PostMetrics).recipients : ℚ) = 3
    ∧ ¬ ((calc_metrics [{ zeroPost with recipients := 1 }, { zeroPost with recipients := 2 }]).map
          (fun m => (m.avg_sent : ℚ))
        = some (((({ zeroPost with recipients := 1 } : PostMetrics).recipients : ℚ)
            + (({ zeroPost with recipients := 2 } : PostMetrics).recipients : ℚ)) / 2)) := by
  refine ⟨?h1, ?h2, ?h3⟩
  · simp [calc_metrics, truncToInt, zeroPost]
    norm_num
  · simp [zeroPost]
    norm_num
  · simp [calc_metrics, truncToInt, zeroPost]
    norm_num

/-- C3 (amended): for every non-empty post list the aggregate's exact-mean
fields (`avg_open_rate`, `avg_click_rate`) are the arithmetic means over
the post count, the integer average fields (`avg_sent`,
`avg_unique_opens`, `avg_unique_clicks`) are those means truncated toward
zero by `int(...)`, and the total fields are straight sums; the 5-post
fixture reproduces 6732 average recipients, 22051 total impressions and a
46.47% average open rate after rounding. -/
theorem aggregate_truncated_means_totals_and_fixture :
    (∀ posts : List PostMetrics, posts ≠ [] →
      calc_metrics posts = some
        { posts_sent := posts.length
          avg_sent :=
            truncToInt (((posts.map fun p => (p.recipients : ℚ)).sum) / (posts.length : ℚ))
          impressions := (posts.map fun p => p.impressions).sum
          avg_unique_opens :=
            truncToInt (((posts.map fun p => (p.unique_opens : ℚ)).sum) / (posts.length : ℚ))
          avg_open_rate := ((posts.map fun p => p.open_rate).sum) / (posts.length : ℚ)
          total_clicks := (posts.map fun p => p.clicks).sum
          avg_unique_clicks :=
            truncToInt (((posts.map fun p => (p.unique_clicks : ℚ)).sum) / (posts.length : ℚ))
          avg_click_rate := ((posts.map fun p => p.click_rate).sum) / (posts.length : ℚ)
          unsubscribes := (posts.map fun p => p.unsubscribes).sum
          top_posts :=
            (stableSort (fun a b => decide (b.open_rate ≤ a.open_rate)) posts).take 3 })
    ∧ (calc_metrics fixturePosts).map (fun m => m.posts_sent) = some 5
    ∧ (calc_metrics fixturePosts).map (fun m => m.avg_sent) = some 6732
    ∧ (calc_metrics fixturePosts).map (fun m => m.impressions) = some 22051
    ∧ (calc_metrics fixturePosts).map (fun m => pyRound2 m.avg_open_rate) = some (4647 / 100) := by
  refine ⟨?gen, ?hc, ?ha, ?hi, ?hr⟩
  · intro posts h
    simp [calc_metrics, h]
  · simp [fixturePosts, fixtureRaw, process_post, calc_metrics]
  · simp [fixturePosts, fixtureRaw, process_post, calc_metrics, truncToInt]
    norm_num
  · simp [fixturePosts, fixtureRaw, process_post, calc_metrics]
  · simp [fixturePosts, fixtureRaw, process_post, calc_metrics, pyRound2]
    norm_num [round_eq]

/-- C3 witness: the general part of the amended claim instantiated at the
non-empty fixture list. -/
theorem aggregate_truncated_means_witness :
    fixturePosts ≠ []
    ∧ calc_metrics fixturePosts = some
        { posts_sent := fixturePosts.length
          avg_sent :=
            truncToInt (((fixturePosts.map fun p => (p.recipients : ℚ)).sum)
              / (fixturePosts.length : ℚ))
          impressions := (fixturePosts.map fun p => p.impressions).sum
          avg_unique_opens :=
            truncToInt (((fixturePosts.map fun p => (p.unique_opens : ℚ)).sum)
              / (fixturePosts.length : ℚ))
          avg_open_rate := ((fixturePosts.map fun p => p.open_rate).sum) / (fixturePosts.length : ℚ)
          total_clicks := (fixturePosts.map fun p => p.clicks).sum
          avg_unique_clicks :=
            truncToInt (((fixturePosts.map fun p => (p.unique_clicks : ℚ)).sum)
              / (fixturePosts.length : ℚ))
          avg_click_rate := ((fixturePosts.map fun p => p.click_rate).sum) / (fixturePosts.length : ℚ)
          unsubscribes := (fixturePosts.map fun p => p.unsubscribes).sum
          top_posts :=
            (stableSort (fun a b => decide (b.open_rate ≤ a.open_rate)) fixturePosts).take 3 } :=
  ⟨by simp [fixturePosts],
   aggregate_truncated_means_totals_and_fixture.1 fixturePosts (by simp [fixturePosts])⟩

set_option maxRecDepth 8000 in
/-- C4: `fetch_posts` requests pages of size 100 and, over a run of
non-empty 200-status pages up to the server-reported `total_pages`,
returns the concatenation over pages, in server order, of exactly the
posts whose publish timestamp lies in the closed interval
`[start, end]`; the two-page stub (100 + 37 posts, `total_pages = 2`)
yields exactly 137 posts. -/
theorem pagination_concat_filter :
    fetchPageLimit = 100
    ∧ (∀ (srv : ApiServer) (s e : ℤ), 1 ≤ srv.total_pages →
        (∀ i ∈ List.range' 1 srv.total_pages, srv.status i = 200 ∧ srv.pages i ≠ []) →
        fetch_posts srv s e
          = (((List.range' 1 srv.total_pages).map srv.pages).flatten).filter (inWindow s e))
    ∧ stubServer.total_pages = 2
    ∧ (stubServer.pages 1).length = 100
    ∧ (stubServer.pages 2).length = 37
    ∧ (fetch_posts stubServer (-1) 1).length = 137 := by
  refine ⟨rfl, ?gen, rfl, by decide, by decide, by decide⟩
  intro srv s e h1 h
  have hr : srv.total_pages - 1 + 1 = srv.total_pages := by omega
  rw [fetch_posts, fetchGo_concat srv s e (srv.total_pages - 1) 1 (by rw [hr]; exact h), hr]

set_option maxRecDepth 8000 in
/-- C4 witness: the pagination characterization applied to the stub
server, whose two pages are non-empty with status 200. -/
theorem pagination_concat_filter_witness :
    1 ≤ stubServer.total_pages
    ∧ fetch_posts stubServer (-1) 1
        = (((List.range' 1 stubServer.total_pages).map stubServer.pages).flatten).filter
            (inWindow (-1) 1) :=
  ⟨by decide, pagination_concat_filter.2.1 stubServer (-1) 1 (by decide) (by decide)⟩

/-- C5: for a non-zero previous value and count-like kind, `calc_change`
returns the relative change `(current - previous) / previous * 100`, its
signed one-decimal percent display, and `positive = (value >= 0)`;
comparing (100, 50) displays "+100.0%" while (50, 100) displays "-50.0%". -/
theorem countlike_change_formula :
    (∀ current previous : ℚ, previous ≠ 0 →
      calc_change current previous false =
        { value := (current - previous) / previous * 100
          display := fmtSignedPct1 ((current - previous) / previous * 100)
          positive := decide (0 ≤ (current - previous) / previous * 100) })
    ∧ (calc_change 100 50 false).display = "+100.0%"
    ∧ (calc_change 50 100 false).display = "-50.0%" := by
  refine ⟨?gen, ?pos, ?neg⟩
  · intro c p hp
    simp [calc_change, hp]
  · simp only [calc_change]
    norm_num [fmtSignedPct1, round_eq]
    decide
  · simp only [calc_change]
    norm_num [fmtSignedPct1, round_eq]
    decide

/-- C5 witness: the count-like formula applied at (100, 50). -/
theorem countlike_change_formula_witness :
    (50:ℚ) ≠ 0
    ∧ calc_change 100 50 false =
        { value := ((100:ℚ) - 50) / 50 * 100
          display := fmtSignedPct1 (((100:ℚ) - 50) / 50 * 100)
          positive := decide (0 ≤ ((100:ℚ) - 50) / 50 * 100) } :=
  ⟨by norm_num, countlike_change_formula.1 100 50 (by norm_num)⟩

/-- C6 counterexample: a raw post with 1 recipient and 2 unique opens has
`open_rate = 200`, outside `[0, 100]`, so the claim is false as stated for
arbitrary raw posts. -/
theorem open_rate_exceeds_hundred :
    0 < overRaw.email.recipients
    ∧ (process_post overRaw).open_rate = 200
    ∧ ¬ (process_post overRaw).open_rate ≤ 100 := by
  refine ⟨by decide, ?h2, ?h3⟩
  · norm_num [process_post, overRaw]
  · norm_num [process_post, overRaw]

/-- C6 (amended): both normalizers return rates that are exactly 0 when
`recipients == 0`, and rates in `[0, 100]` whenever `recipients > 0` and
the corresponding unique count does not exceed the recipient count (the
scripts do not clamp, so the bound needs that consistency hypothesis). -/
theorem rate_bounds_guarded :
    ∀ (post : RawPost) (pub : String),
      (post.email.recipients = 0 →
        (process_post post).open_rate = 0 ∧ (process_post post).click_rate = 0
        ∧ (process_post_data post pub).open_rate = 0
        ∧ (process_post_data post pub).click_rate = 0)
      ∧ (0 < post.email.recipients → post.email.unique_opens ≤ post.email.recipients →
          (0 ≤ (process_post post).open_rate ∧ (process_post post).open_rate ≤ 100)
          ∧ (0 ≤ (process_post_data post pub).open_rate
             ∧ (process_post_data post pub).open_rate ≤ 100))
      ∧ (0 < post.email.recipients → post.email.unique_clicks ≤ post.email.recipients →
          (0 ≤ (process_post post).click_rate ∧ (process_post post).click_rate ≤ 100)
          ∧ (0 ≤ (process_post_data post pub).click_rate
             ∧ (process_post_data post pub).click_rate ≤ 100)) := by
  intro post pub
  refine ⟨?hz, ?ho, ?hc⟩
  · intro h0
    have hlt : ¬ 0 < post.email.recipients := by omega
    simp [process_post, process_post_data, hlt, pyRound2_zero]
  · intro hr hu
    obtain ⟨hb0, hb1⟩ := rate_formula_bounds hr hu
    have he : (process_post post).open_rate
        = (post.email.unique_opens : ℚ) / (post.email.recipients : ℚ) * 100 := by
      simp [process_post, hr]
    have hd : (process_post_data post pub).open_rate
        = pyRound2 ((post.email.unique_opens : ℚ) / (post.email.recipients : ℚ) * 100) := by
      simp [process_post_data, hr]
    rw [he, hd]
    exact ⟨⟨hb0, hb1⟩, pyRound2_nonneg hb0, pyRound2_le_100 hb1⟩
  · intro hr hu
    obtain ⟨hb0, hb1⟩ := rate_formula_bounds hr hu
    have he : (process_post post).click_rate
        = (post.email.unique_clicks : ℚ) / (post.email.recipients : ℚ) * 100 := by
      simp [process_post, hr]
    have hd : (process_post_data post pub).click_rate
        = pyRound2 ((post.email.unique_clicks : ℚ) / (post.email.recipients : ℚ) * 100) := by
      simp [process_post_data, hr]
    rw [he, hd]
    exact ⟨⟨hb0, hb1⟩, pyRound2_nonneg hb0, pyRound2_le_100 hb1⟩

/-- C6 witness: the guarded bounds applied to a consistent raw post with
4 recipients and 2 unique opens. -/
theorem rate_bounds_guarded_witness :
    0 < wRaw.email.recipients
    ∧ wRaw.email.unique_opens ≤ wRaw.email.recipients
    ∧ 0 ≤ (process_post wRaw).open_rate ∧ (process_post wRaw).open_rate ≤ 100 :=
  ⟨by decide, by decide,
   (((rate_bounds_guarded wRaw "ETL Daily").2.1 (by decide) (by decide)).1).1,
   (((rate_bounds_guarded wRaw "ETL Daily").2.1 (by decide) (by decide)).1).2⟩

/-- C7: the combined average open rate of the totals block is the
arithmetic mean of the per-publication average open rates, one summand per
contributing publication — not a mean over all posts, as the demo with
publications of 1 and 2 posts shows (15 vs 20). -/
theorem totals_open_rate_publication_mean :
    (∀ pubs : List PubData,
      (generate_weekly_report pubs).totalsCurrent.open_rates
          = (pubs.filter fun p => !p.curr.isEmpty).map (fun p => pubAvgOpenRate p.curr)
      ∧ ((pubs.filter fun p => !p.curr.isEmpty) ≠ [] →
          avgOpenRateOfTotals (generate_weekly_report pubs).totalsCurrent
            = ((pubs.filter fun p => !p.curr.isEmpty).map fun p => pubAvgOpenRate p.curr).sum
                / (((pubs.filter fun p => !p.curr.isEmpty).length : ℚ))))
    ∧ avgOpenRateOfTotals (generate_weekly_report [demoA, demoB]).totalsCurrent = 15
    ∧ pubAvgOpenRate (demoA.curr ++ demoB.curr) = 20
    ∧ avgOpenRateOfTotals (generate_weekly_report [demoA, demoB]).totalsCurrent
        ≠ pubAvgOpenRate (demoA.curr ++ demoB.curr) := by
  have hval : avgOpenRateOfTotals (generate_weekly_report [demoA, demoB]).totalsCurrent = 15 := by
    simp [generate_weekly_report, stepPub, calc_metrics, demoA, demoB, ratePost, zeroPost,
      addTotals, initReport, avgOpenRateOfTotals]
    norm_num
  have hall : pubAvgOpenRate (demoA.curr ++ demoB.curr) = 20 := by
    simp [pubAvgOpenRate, demoA, demoB, ratePost, zeroPost]
    norm_num
  refine ⟨?gen, hval, hall, ?hne⟩
  · intro pubs
    have hor := foldl_open_rates pubs initReport
    constructor
    · simpa [generate_weekly_report, initReport] using hor
    · intro hne
      have hor2 : (generate_weekly_report pubs).totalsCurrent.open_rates
          = (pubs.filter fun p => !p.curr.isEmpty).map fun p => pubAvgOpenRate p.curr := by
        simpa [generate_weekly_report, initReport] using hor
      rw [avgOpenRateOfTotals, hor2]
      have hmapne :
          ((pubs.filter fun p => !p.curr.isEmpty).map fun p => pubAvgOpenRate p.curr) ≠ [] := by
        simpa using hne
      simp [List.isEmpty_iff, hmapne]
  · rw [hval, hall]
    norm_num

/-- C7 witness: the publication-mean equation applied to the two demo
publications. -/
theorem totals_open_rate_publication_mean_witness :
    ([demoA, demoB].filter fun p => !p.curr.isEmpty) ≠ []
    ∧ avgOpenRateOfTotals (generate_weekly_report [demoA, demoB]).totalsCurrent
        = (([demoA, demoB].filter fun p => !p.curr.isEmpty).map fun p =>
            pubAvgOpenRate p.curr).sum
            / ((([demoA, demoB].filter fun p => !p.curr.isEmpty).length : ℚ)) :=
  ⟨by simp [demoA, demoB],
   (totals_open_rate_publication_mean.1 [demoA, demoB]).2 (by simp [demoA, demoB])⟩

/-- C8 counterexample: `process_clicks_data` on a post with six link-click
records returns six rows, so the claim that normalization keeps at most
the first 5 is false for the `newsletter_report.py` normalizer. -/
theorem clicks_rows_not_capped :
    (process_clicks_data sixClicksPost "ETL Daily").length = 6
    ∧ ¬ ((process_clicks_data sixClicksPost "ETL Daily").length ≤ 5) := by
  constructor <;> decide

/-- C8 (amended): `process_post` keeps the first 5 link-click records in
encounter order (`[:5]` slice, length `min 5 n`), while
`process_clicks_data` keeps all of them in encounter order; neither ranks
at this stage. -/
theorem click_records_retention :
    ∀ (post : RawPost) (pub : String),
      (process_post post).top_clicks = (post.clicks.map mkClickEntry).take 5
      ∧ (process_post post).top_clicks.length = min 5 post.clicks.length
      ∧ (process_post post).top_clicks.length ≤ 5
      ∧ process_clicks_data post pub = post.clicks.map (fun c =>
          { publication := pub, post_title := post.title, link_url := c.url,
            link_description := c.description.getD (c.url.take 50),
            clicks := c.total_clicks, unique_clicks := c.total_unique_clicks })
      ∧ (process_clicks_data post pub).length = post.clicks.length := by
  intro post pub
  refine ⟨?h1, ?h2, ?h3, rfl, ?h5⟩
  · simp [process_post, List.map_take]
  · simp [process_post]
  · simp [process_post]
  · simp [process_clicks_data]

/-- C9: a publication whose current-period post list is empty is omitted
from the report entirely — the weekly and monthly builders produce the
very same report as if the publication were absent, so neither its entry
nor any of its current- or previous-period data reaches the publications
map or the totals block, even when the previous period is non-empty. -/
theorem empty_current_publication_omitted :
    ∀ (pre rest : List PubData) (entry : PubData), entry.curr = [] →
      generate_weekly_report (pre ++ entry :: rest) = generate_weekly_report (pre ++ rest)
      ∧ generate_monthly_report (pre ++ entry :: rest) = generate_monthly_report (pre ++ rest) := by
  intro pre rest entry h
  have hstep : ∀ acc, stepPub acc entry = acc := by
    intro acc
    simp [stepPub, calc_metrics, h]
  constructor
  · simp [generate_weekly_report, List.foldl_append, hstep]
  · simp [generate_monthly_report, List.foldl_append, hstep]

/-- C9 witness: the omission applied to a publication with an empty
current period but a non-empty previous period. -/
theorem empty_current_publication_omitted_witness :
    entryE.curr = [] ∧ entryE.prev ≠ []
    ∧ generate_weekly_report [demoA, entryE] = generate_weekly_report [demoA]
    ∧ generate_monthly_report [demoA, entryE] = generate_monthly_report [demoA] :=
  ⟨rfl, by simp [entryE],
   (empty_current_publication_omitted [demoA] [] entryE rfl).1,
   (empty_current_publication_omitted [demoA] [] entryE rfl).2⟩

/-- C10: every division in the core pipeline is guarded — the variants of
`process_post`, `calc_metrics` and `calc_change` that fail on a zero
denominator agree with the plain functions on all inputs, so no reachable
branch divides by zero. -/
theorem divisions_guarded_total :
    (∀ post : RawPost, process_post_checked post = some (process_post post))
    ∧ (∀ posts : List PostMetrics, calc_metrics_checked posts = some (calc_metrics posts))
    ∧ (∀ (c p : ℚ) (b : Bool), calc_change_checked c p b = some (calc_change c p b)) := by
  refine ⟨?hp, ?hm, ?hc⟩
  · intro post
    by_cases h : 0 < post.email.recipients
    · have hne : ((post.email.recipients : ℚ)) ≠ 0 := by
        exact_mod_cast Nat.pos_iff_ne_zero.mp h
      simp [process_post_checked, process_post, divChecked, h, hne]
    · simp [process_post_checked, process_post, divChecked, h]
  · intro posts
    cases posts with
    | nil => simp [calc_metrics_checked, calc_metrics]
    | cons p t =>
      have hne : ((t.length : ℚ)) + 1 ≠ 0 := by positivity
      simp [calc_metrics_checked, calc_metrics, divChecked, hne]
  · intro c p b
    by_cases hp : p = 0
    · simp [calc_change_checked, calc_change, hp]
    · cases b <;> simp [calc_change_checked, calc_change, hp, divChecked]

end TiempoReports
